import Mathlib

/-!
Verification of the LendFlow loan-management backend (`server/index.js`).

The development shallowly embeds the backend's core logic in Lean 4:

* money is modelled exactly, as rational numbers (`ℚ`), with the source's
  `Math.round(x * 100) / 100` steps modelled as exact rounding to the
  2-decimal grid (JavaScript `Math.round` rounds half toward positive
  infinity, i.e. `Math.round x = ⌊x + 1/2⌋`);
* the Mongoose `Loan` / `Payment` documents become Lean structures, the two
  collections become lists inside a `DB` state;
* the Express route handlers `POST /api/v1/loans`,
  `POST /api/v1/loans/:loanId/payments` and `GET /api/v1/dashboard` become
  pure functions on `DB`, with their early-return error responses modelled
  by `Except`, and the Mongoose schema validation that runs on `save()`
  modelled by explicit document-validity checks;
* fresh document ids (uuid defaults) are passed in as parameters.
-/

deriving instance DecidableEq for Except

namespace LendFlow

/-- JavaScript `Math.round`: round to the nearest integer, half toward
positive infinity, i.e. `⌊x + 1/2⌋`.  Defined via `Rat.floor` so that it
evaluates by reduction. -/
def jsRound (q : ℚ) : ℤ :=
  (q + 1/2).floor

/-- The source's money-rounding idiom `Math.round(x * 100) / 100`. -/
def round2 (q : ℚ) : ℚ :=
  (jsRound (q * 100) : ℚ) / 100

/-- Result of `calculateMonthlyPayment`.  The JavaScript function always
returns a `Number`; `nonFinite` marks the cases where that number is
`NaN`/`Infinity` (a division by zero inside the formula).  It never throws
for numeric arguments, so there is no error constructor. -/
inductive CalcResult
  | ok (payment : ℚ)
  | nonFinite
deriving DecidableEq

/-- Embedding of `calculateMonthlyPayment(principal, annualRate, termMonths)`
(server/index.js lines 207–219):

    const monthlyRate = annualRate / 100 / 12;
    if (monthlyRate === 0) return Math.round((principal / termMonths) * 100) / 100;
    const payment = principal * (monthlyRate * Math.pow(1 + monthlyRate, termMonths)) /
                    (Math.pow(1 + monthlyRate, termMonths) - 1);
    return Math.round(payment * 100) / 100;

The term is restricted to whole months (`ℕ`), the domain the spec claims
range over.  In JavaScript `principal / 0` and `x / 0` yield
`Infinity`/`NaN` rather than a thrown error; these are the `nonFinite`
branches. -/
def calculateMonthlyPayment (principal annualRate : ℚ) (termMonths : ℕ) : CalcResult :=
  let monthlyRate := annualRate / 100 / 12
  if monthlyRate = 0 then
    if termMonths = 0 then .nonFinite
    else .ok (round2 (principal / (termMonths : ℚ)))
  else
    let growth := (1 + monthlyRate) ^ termMonths
    if growth - 1 = 0 then .nonFinite
    else .ok (round2 (principal * (monthlyRate * growth) / (growth - 1)))

/-- `status` enum of the `Loan` schema. -/
inductive LoanStatus
  | ACTIVE
  | PAID_OFF
deriving DecidableEq

/-- `status` enum of the `Payment` schema. -/
inductive PayStatus
  | pending
  | completed
  | failed
deriving DecidableEq

/-- A `Loan` document (loanSchema, lines 83–142). -/
structure Loan where
  loanId : String
  customerId : String
  amount : ℚ
  interestRate : ℚ
  term : ℕ
  status : LoanStatus
  monthlyPayment : ℚ
  totalAmount : ℚ
  remainingBalance : ℚ
deriving DecidableEq

/-- A `Payment` document (paymentSchema, lines 144–190). -/
structure Payment where
  loanId : String
  amount : ℚ
  paymentType : String
  paymentMethod : String
  status : PayStatus
deriving DecidableEq

/-- The persisted state: the customer ids plus the loan and payment
collections. -/
structure DB where
  customers : List String
  loans : List Loan
  payments : List Payment
deriving DecidableEq

/-- Mongoose validation of a `Loan` document, run on `save()`: the `min`/`max`
bounds of `loanSchema`. -/
def loanDocValid (l : Loan) : Bool :=
  decide (1000 ≤ l.amount) && decide (l.amount ≤ 100000000) &&
  decide (1/10 ≤ l.interestRate) && decide (l.interestRate ≤ 50) &&
  decide (1 ≤ l.term) && decide (l.term ≤ 360) &&
  decide (1 ≤ l.monthlyPayment) && decide (1 ≤ l.totalAmount) &&
  decide (0 ≤ l.remainingBalance)

/-- Allowed `paymentType` values. -/
def ptypeValues : List String := ["EMI", "LUMP_SUM"]

/-- Allowed `paymentMethod` values. -/
def pmethodValues : List String := ["cash", "check", "bank_transfer", "credit_card", "debit_card"]

/-- Mongoose validation of a `Payment` document, run on `save()`: the
`min: [1, 'Payment amount must be at least ₹1']` bound and the two enums. -/
def paymentDocValid (p : Payment) : Bool :=
  decide (1 ≤ p.amount) && ptypeValues.contains p.paymentType &&
    pmethodValues.contains p.paymentMethod

/-- `Loan.findOne({ loanId })`. -/
def findLoan (db : DB) (lid : String) : Option Loan :=
  db.loans.find? (fun l => l.loanId == lid)

/-- The balance/status update of the payment route (lines 565–573):

    const newBalance = Math.round((loan.remainingBalance - Number(amount)) * 100) / 100;
    loan.remainingBalance = newBalance;
    if (newBalance <= 0) { loan.status = 'PAID_OFF'; loan.remainingBalance = 0; }
-/
def applyToLoan (loan : Loan) (a : ℚ) : Loan :=
  let newBalance := round2 (loan.remainingBalance - a)
  if newBalance ≤ 0 then
    { loan with remainingBalance := 0, status := .PAID_OFF }
  else
    { loan with remainingBalance := newBalance }

/-- `loan.save()` after mutating the found document: replace the stored
document(s) with that `loanId`. -/
def updateLoan (loans : List Loan) (l : Loan) : List Loan :=
  loans.map (fun x => if x.loanId == l.loanId then l else x)

/-- The client-visible failures of `POST /api/v1/loans/:loanId/payments`. -/
inductive PayError
  | missingFields
  | invalidAmount
  | loanNotFound
  | loanPaidOff
  | exceedsBalance
  | validationFailed
deriving DecidableEq

/-- Embedding of `POST /api/v1/loans/:loanId/payments` (lines 508–597).
`amount` is the request-body amount after JavaScript number conversion:
`none` models a missing or non-numeric (`NaN`) value.  The checks appear in
source order: the falsy-field check, the `isNaN`/positivity check, the loan
lookup, the `PAID_OFF` guard, the overpayment guard, then `payment.save()`
(where Mongoose enforces `paymentDocValid`) and finally the balance/status
update and `loan.save()`.  `mkPayment` is the `new Payment({...})` document,
with the route's `toUpperCase()`/`toLowerCase()` normalisation. -/
def mkPayment (lid : String) (a : ℚ) (ptype pmethod : String) : Payment :=
  { loanId := lid, amount := a, paymentType := ptype.toUpper,
    paymentMethod := pmethod.toLower, status := .completed }

def postPayment (db : DB) (lid : String) (amount : Option ℚ)
    (ptype pmethod : String) : Except PayError (DB × Payment) :=
  if lid = "" ∨ amount.getD 0 = 0 ∨ ptype = "" ∨ pmethod = "" then
    .error .missingFields
  else
    match amount with
    | none => .error .invalidAmount
    | some a =>
      if a ≤ 0 then .error .invalidAmount
      else
        match findLoan db lid with
        | none => .error .loanNotFound
        | some loan =>
          if loan.status = .PAID_OFF then .error .loanPaidOff
          else if loan.remainingBalance < a then .error .exceedsBalance
          else
            if paymentDocValid (mkPayment lid a ptype pmethod) then
              .ok ({ db with loans := updateLoan db.loans (applyToLoan loan a),
                             payments := db.payments ++ [mkPayment lid a ptype pmethod] },
                   mkPayment lid a ptype pmethod)
            else .error .validationFailed

/-- A payment request (route parameter plus body fields). -/
structure PayReq where
  loanId : String
  amount : Option ℚ
  paymentType : String
  paymentMethod : String
deriving DecidableEq

/-- One request against the store: a successful payment updates the state, a
rejected one returns the previous state (the handler returns before any
write). -/
def payStep (db : DB) (r : PayReq) : DB :=
  match postPayment db r.loanId r.amount r.paymentType r.paymentMethod with
  | .ok (db2, _) => db2
  | .error _ => db

/-- A sequence of payment requests applied in order. -/
def runPayments (db : DB) (rs : List PayReq) : DB :=
  rs.foldl payStep db

/-- The client-visible failures of `POST /api/v1/loans`. -/
inductive LoanError
  | missingFields
  | notNumeric
  | belowMinimum
  | customerNotFound
  | validationFailed
deriving DecidableEq

/-- Embedding of `POST /api/v1/loans` (lines 356–422).  `lid` stands for the
fresh uuid-based `loanId` default.  `amount`/`interestRate` are the body
fields after number conversion (`none` = missing or `NaN`); `term` is
restricted to whole months.  Checks in source order: falsy-field check,
`isNaN` checks, the `amount < 1000` check, the customer lookup, then
`calculateMonthlyPayment`, `totalAmount = Math.round(monthlyPayment * term * 100) / 100`,
and `loan.save()` (Mongoose validation `loanDocValid`; a non-finite
`monthlyPayment` likewise fails validation). -/
def postLoan (db : DB) (lid customerId : String)
    (amount interestRate : Option ℚ) (term : Option ℕ) :
    Except LoanError (DB × Loan) :=
  if customerId = "" ∨ amount.getD 0 = 0 ∨ interestRate.getD 0 = 0 ∨ term.getD 0 = 0 then
    .error .missingFields
  else
    match amount, interestRate, term with
    | some p, some r, some n =>
      if p < 1000 then .error .belowMinimum
      else if customerId ∈ db.customers then
        match calculateMonthlyPayment p r n with
        | .nonFinite => .error .validationFailed
        | .ok mp =>
          let ta := round2 (mp * (n : ℚ))
          let loan : Loan :=
            { loanId := lid, customerId := customerId, amount := p,
              interestRate := r, term := n, status := .ACTIVE,
              monthlyPayment := mp, totalAmount := ta, remainingBalance := ta }
          if loanDocValid loan then
            .ok ({ db with loans := db.loans ++ [loan] }, loan)
          else .error .validationFailed
      else .error .customerNotFound
    | _, _, _ => .error .notNumeric

/-- The `stats` block of `GET /api/v1/dashboard`. -/
structure DashStats where
  totalLoans : ℕ
  activeLoans : ℕ
  paidOffLoans : ℕ
  totalLoanAmount : ℚ
  totalCollected : ℚ
deriving DecidableEq

/-- A MongoDB `$group`/`$sum` aggregation over a list of amounts: `none` when
the input collection is empty (the pipeline emits no group document), else
the accumulated sum. -/
def aggregateSum (xs : List ℚ) : Option ℚ :=
  if xs.isEmpty then none else some (xs.foldl (· + ·) 0)

/-- Embedding of the statistics of `GET /api/v1/dashboard` (lines 600–645):
`countDocuments` with status filters, the two `$sum` aggregations, and the
source's `totalX[0]?.total || 0` defaulting. -/
def getDashboard (db : DB) : DashStats :=
  { totalLoans := db.loans.length
    activeLoans := (db.loans.filter (fun l => decide (l.status = .ACTIVE))).length
    paidOffLoans := (db.loans.filter (fun l => decide (l.status = .PAID_OFF))).length
    totalLoanAmount := (aggregateSum (db.loans.map Loan.amount)).getD 0
    totalCollected :=
      (aggregateSum
        ((db.payments.filter (fun p => decide (p.status = .completed))).map Payment.amount)).getD 0 }

/-! ### Basic facts about the rounding helpers -/

/-- `Rat.floor` agrees with the floor of the `FloorRing` instance. -/
theorem ratFloor_eq_intFloor (q : ℚ) : q.floor = ⌊q⌋ := by
  rw [Rat.floor_def', Rat.floor_def]

/-- `jsRound` is `⌊x + 1/2⌋`. -/
theorem jsRound_eq (q : ℚ) : jsRound q = ⌊q + 1/2⌋ := by
  rw [jsRound, ratFloor_eq_intFloor]

/-- Rounding to the cent grid moves a value up by at most half a cent. -/
theorem round2_le (q : ℚ) : round2 q ≤ q + 1/200 := by
  have h := Int.floor_le (q * 100 + 1/2)
  rw [round2, jsRound_eq, div_le_iff₀ (by norm_num : (0:ℚ) < 100)]
  linarith

/-- Rounding to the cent grid moves a value down by less than half a cent. -/
theorem lt_round2 (q : ℚ) : q - 1/200 < round2 q := by
  have h := Int.lt_floor_add_one (q * 100 + 1/2)
  rw [round2, jsRound_eq, lt_div_iff₀ (by norm_num : (0:ℚ) < 100)]
  linarith

/-- Rounding zero gives zero. -/
theorem round2_zero : round2 0 = 0 := by
  rw [round2, jsRound_eq]
  norm_num

/-- A value on the exact 2-decimal grid: an integer number of cents. -/
def onGrid (q : ℚ) : Prop :=
  ∃ k : ℤ, q = (k : ℚ) / 100

/-- Every rounded value lies on the 2-decimal grid. -/
theorem round2_onGrid (q : ℚ) : onGrid (round2 q) :=
  ⟨jsRound (q * 100), rfl⟩

/-! ### Inversion of the payment route -/

/-- A loan found by `findLoan db lid` carries `lid` as its `loanId`. -/
theorem findLoan_loanId {db : DB} {lid : String} {l : Loan}
    (h : findLoan db lid = some l) : l.loanId = lid := by
  have hp := List.find?_some h
  simpa using hp

/-- `applyToLoan` only touches `remainingBalance` and `status`. -/
theorem applyToLoan_fields (loan : Loan) (a : ℚ) :
    (applyToLoan loan a).loanId = loan.loanId ∧
      (applyToLoan loan a).totalAmount = loan.totalAmount ∧
      (applyToLoan loan a).monthlyPayment = loan.monthlyPayment := by
  rw [applyToLoan]
  split <;> exact ⟨rfl, rfl, rfl⟩

/-- Auxiliary list form of `findLoan_updateLoan`. -/
theorem find?_update (loans : List Loan) (lid : String) (l2 x : Loan)
    (h : loans.find? (fun l => l.loanId == lid) = some x) :
    (updateLoan loans l2).find? (fun l => l.loanId == lid) =
      some (if x.loanId == l2.loanId then l2 else x) := by
  induction loans with
  | nil => simp at h
  | cons y ys ih =>
    have hhead : ((if y.loanId == l2.loanId then l2 else y).loanId == lid)
        = (y.loanId == lid) := by
      by_cases hyl : (y.loanId == l2.loanId) = true
      · rw [if_pos hyl, ← eq_of_beq hyl]
      · rw [if_neg hyl]
    rw [updateLoan, List.map_cons]
    by_cases hy : (y.loanId == lid) = true
    · simp only [List.find?_cons, hy] at h
      simp only [List.find?_cons, hhead, hy]
      injection h with h
      subst h
      rfl
    · have hy' : (y.loanId == lid) = false := Bool.eq_false_iff.mpr hy
      simp only [List.find?_cons, hy'] at h
      simp only [List.find?_cons, hhead, hy']
      exact ih h

/-- After writing back document `l2`, a lookup finds `l2` where it previously
found a document with `l2`'s `loanId`, and the previous document otherwise. -/
theorem findLoan_updateLoan {db : DB} {lid : String} {x : Loan} (l2 : Loan)
    (h : findLoan db lid = some x) :
    findLoan { db with loans := updateLoan db.loans l2 } lid =
      some (if x.loanId == l2.loanId then l2 else x) :=
  find?_update db.loans lid l2 x h

/-- Inversion of a successful payment: the request carried a numeric amount
that passed every guard (`0 < a`, schema minimum `1 ≤ a`, no overpayment) on
an `ACTIVE` loan, and the new state consists of the balance-updated loan plus
one appended `completed` payment record. -/
theorem postPayment_ok_inv {db : DB} {lid : String} {amt : Option ℚ} {pt pm : String}
    {db2 : DB} {pay : Payment}
    (h : postPayment db lid amt pt pm = .ok (db2, pay)) :
    ∃ loan a, amt = some a ∧ findLoan db lid = some loan ∧
      loan.status = .ACTIVE ∧ 0 < a ∧ 1 ≤ a ∧ a ≤ loan.remainingBalance ∧
      pay = mkPayment lid a pt pm ∧
      db2 = { db with loans := updateLoan db.loans (applyToLoan loan a),
                      payments := db.payments ++ [pay] } := by
  unfold postPayment at h
  split at h
  · exact absurd h (by simp)
  · rename_i hfields
    split at h
    · exact absurd h (by simp)
    · rename_i a
      split at h
      · exact absurd h (by simp)
      · rename_i ha
        split at h
        · exact absurd h (by simp)
        · rename_i loan hloan
          split at h
          · exact absurd h (by simp)
          · rename_i hpaid
            split at h
            · exact absurd h (by simp)
            · rename_i hover
              split at h
              · rename_i hvalid
                have h2 := Except.ok.inj h
                injection h2 with hdb hpay
                subst hdb
                subst hpay
                refine ⟨loan, a, rfl, hloan, ?_, lt_of_not_le ha, ?_,
                  le_of_not_lt hover, rfl, rfl⟩
                · cases hs : loan.status with
                  | ACTIVE => rfl
                  | PAID_OFF => exact absurd hs hpaid
                · have hv := hvalid
                  rw [paymentDocValid, Bool.and_eq_true, Bool.and_eq_true] at hv
                  exact of_decide_eq_true hv.1.1
              · exact absurd h (by simp)

/-- A rejected payment request returns the state unchanged: the handler
responds before any write. -/
theorem payStep_of_error {db : DB} {r : PayReq} {e : PayError}
    (h : postPayment db r.loanId r.amount r.paymentType r.paymentMethod = .error e) :
    payStep db r = db := by
  rw [payStep, h]

/-! ### The balance/status invariant -/

/-- The ledger invariant of the spec: the balance stays between `0` and
`totalAmount`, and `PAID_OFF` holds exactly on zero balance. -/
def LoanOK (l : Loan) : Prop :=
  0 ≤ l.remainingBalance ∧ l.remainingBalance ≤ l.totalAmount ∧
    (l.status = .PAID_OFF ↔ l.remainingBalance = 0)

/-- Applying an accepted payment (`1 ≤ a ≤ remainingBalance`) preserves the
ledger invariant and does not increase the balance. -/
theorem loanOK_applyToLoan {l : Loan} {a : ℚ} (hOK : LoanOK l) (h1 : 1 ≤ a)
    (hle : a ≤ l.remainingBalance) :
    LoanOK (applyToLoan l a) ∧
      (applyToLoan l a).remainingBalance ≤ l.remainingBalance := by
  obtain ⟨h0, hta, hiff⟩ := hOK
  have hact : l.status = .ACTIVE := by
    cases hs : l.status with
    | ACTIVE => rfl
    | PAID_OFF => rw [hiff.mp hs] at hle; linarith
  have hub := round2_le (l.remainingBalance - a)
  have hlb := lt_round2 (l.remainingBalance - a)
  rw [LoanOK, applyToLoan]
  split
  · rename_i hz
    refine ⟨⟨le_refl 0, ?_, ⟨fun _ => rfl, fun _ => rfl⟩⟩, ?_⟩
    · show (0:ℚ) ≤ l.totalAmount
      linarith
    · show (0:ℚ) ≤ l.remainingBalance
      exact h0
  · rename_i hz
    push_neg at hz
    refine ⟨⟨le_of_lt hz, ?_, ?_⟩, ?_⟩
    · show round2 (l.remainingBalance - a) ≤ l.totalAmount
      linarith
    · constructor
      · intro hc
        have hc' : l.status = .PAID_OFF := hc
        rw [hact] at hc'
        exact absurd hc' (by simp)
      · intro hc
        have hc' : round2 (l.remainingBalance - a) = 0 := hc
        exact absurd hc' (ne_of_gt hz)
    · show round2 (l.remainingBalance - a) ≤ l.remainingBalance
      linarith

/-- Tracking one loan across an arbitrary payment request: either the state
of that loan is untouched, or an accepted amount `a` with
`0 < a`, `1 ≤ a`, `a ≤ remainingBalance` was applied to it.  `totalAmount`
and `monthlyPayment` are never modified. -/
theorem payStep_findLoan {db : DB} {lid : String} {l : Loan} (r : PayReq)
    (h : findLoan db lid = some l) :
    ∃ l', findLoan (payStep db r) lid = some l' ∧
      l'.totalAmount = l.totalAmount ∧ l'.monthlyPayment = l.monthlyPayment ∧
      (l' = l ∨ (l.status = .ACTIVE ∧ ∃ a, 0 < a ∧ 1 ≤ a ∧
        a ≤ l.remainingBalance ∧ l' = applyToLoan l a)) := by
  unfold payStep
  cases hpp : postPayment db r.loanId r.amount r.paymentType r.paymentMethod with
  | error e => exact ⟨l, h, rfl, rfl, Or.inl rfl⟩
  | ok res =>
    obtain ⟨db2, pay⟩ := res
    obtain ⟨loan, a, hamt, hfind, hact, hpos, hone, hle, hpay, hdb2⟩ :=
      postPayment_ok_inv hpp
    have hkey : (applyToLoan loan a).loanId = loan.loanId := (applyToLoan_fields loan a).1
    have hup := find?_update db.loans lid (applyToLoan loan a) l h
    rw [hkey] at hup
    by_cases hll : (l.loanId == loan.loanId) = true
    · have heq : lid = r.loanId := by
        rw [← findLoan_loanId h, eq_of_beq hll, findLoan_loanId hfind]
      rw [← heq] at hfind
      rw [h] at hfind
      have hl : l = loan := Option.some.inj hfind
      subst hl
      refine ⟨applyToLoan l a, ?_, (applyToLoan_fields l a).2.1,
        (applyToLoan_fields l a).2.2, Or.inr ⟨hact, a, hpos, hone, hle, rfl⟩⟩
      rw [hdb2]
      show (updateLoan db.loans (applyToLoan l a)).find? (fun x => x.loanId == lid) = _
      rw [hup, if_pos hll]
    · refine ⟨l, ?_, rfl, rfl, Or.inl rfl⟩
      rw [hdb2]
      show (updateLoan db.loans (applyToLoan loan a)).find? (fun x => x.loanId == lid) = _
      rw [hup, if_neg hll]

/-- The ledger invariant is preserved, and the balance non-increasing, across
any sequence of payment requests. -/
theorem runPayments_inv {db : DB} {lid : String} {l : Loan} (rs : List PayReq)
    (h : findLoan db lid = some l) (hOK : LoanOK l) :
    ∃ l', findLoan (runPayments db rs) lid = some l' ∧ LoanOK l' ∧
      l'.remainingBalance ≤ l.remainingBalance ∧
      l'.totalAmount = l.totalAmount := by
  induction rs generalizing db l with
  | nil => exact ⟨l, h, hOK, le_refl _, rfl⟩
  | cons r rs ih =>
    obtain ⟨l1, h1, hta1, _, hcase⟩ := payStep_findLoan r h
    have hOK1 : LoanOK l1 ∧ l1.remainingBalance ≤ l.remainingBalance := by
      rcases hcase with rfl | ⟨_, a, _, hone, hle, rfl⟩
      · exact ⟨hOK, le_refl _⟩
      · exact loanOK_applyToLoan hOK hone hle
    obtain ⟨l', h', hOK', hmono, hta'⟩ := ih h1 hOK1.1
    exact ⟨l', h', hOK', le_trans hmono hOK1.2, Eq.trans hta' hta1⟩

/-! ### Claim C1 -/

/-- C1: for every loan starting `ACTIVE` with `remainingBalance = totalAmount`
(every loan the system creates also has `totalAmount ≥ 1`, the schema
minimum), and for every sequence of payment requests, after each step
(`p` ranges over every prefix of the request sequence `p ++ q`) the loan
satisfies `0 ≤ remainingBalance ≤ totalAmount` and
`status = PAID_OFF ↔ remainingBalance = 0`, and `remainingBalance` is
non-increasing across the sequence.  Rejected requests leave the state
unchanged, so only accepted payment applications move the balance. -/
theorem loan_balance_invariant {db : DB} {lid : String} {l0 : Loan}
    (p q : List PayReq)
    (h0 : findLoan db lid = some l0) (hA : l0.status = .ACTIVE)
    (hB : l0.remainingBalance = l0.totalAmount) (hT : 1 ≤ l0.totalAmount) :
    ∃ l1 l2, findLoan (runPayments db p) lid = some l1 ∧
      findLoan (runPayments db (p ++ q)) lid = some l2 ∧
      (0 ≤ l1.remainingBalance ∧ l1.remainingBalance ≤ l1.totalAmount ∧
        (l1.status = .PAID_OFF ↔ l1.remainingBalance = 0)) ∧
      (0 ≤ l2.remainingBalance ∧ l2.remainingBalance ≤ l2.totalAmount ∧
        (l2.status = .PAID_OFF ↔ l2.remainingBalance = 0)) ∧
      l2.remainingBalance ≤ l1.remainingBalance ∧
      l1.remainingBalance ≤ l0.totalAmount := by
  have hOK : LoanOK l0 := by
    refine ⟨by rw [hB]; linarith, by rw [hB], ?_, ?_⟩
    · intro hc
      rw [hA] at hc
      exact absurd hc (by simp)
    · intro hc
      exfalso
      rw [hB] at hc
      linarith
  obtain ⟨l1, h1, hOK1, hm1, hta1⟩ := runPayments_inv p h0 hOK
  obtain ⟨l2, h2, hOK2, hm2, hta2⟩ := runPayments_inv q h1 hOK1
  refine ⟨l1, l2, h1, ?_, hOK1, hOK2, hm2, ?_⟩
  · show findLoan (runPayments db (p ++ q)) lid = some l2
    rw [runPayments, List.foldl_append]
    exact h2
  · calc l1.remainingBalance ≤ l0.remainingBalance := hm1
      _ = l0.totalAmount := hB

/-- Concrete loan used by the witnesses: `P = 1000`, `r = 12 %`, `n = 12`,
whose exact monthly payment is `88.85` and total `1066.20`. -/
def exLoan : Loan :=
  { loanId := "LOAN-1", customerId := "CUST-1", amount := 1000,
    interestRate := 12, term := 12, status := .ACTIVE,
    monthlyPayment := 1777/20, totalAmount := 5331/5,
    remainingBalance := 5331/5 }

/-- Concrete store used by the witnesses. -/
def exDB : DB :=
  { customers := ["CUST-1"], loans := [exLoan], payments := [] }

/-- First witness request: pay `100` on `LOAN-1`. -/
def exReq1 : PayReq :=
  { loanId := "LOAN-1", amount := some 100, paymentType := "EMI",
    paymentMethod := "cash" }

/-- Second witness request: pay `20.30` on `LOAN-1`. -/
def exReq2 : PayReq :=
  { loanId := "LOAN-1", amount := some (203/10), paymentType := "LUMP_SUM",
    paymentMethod := "bank_transfer" }

/-- Witness for C1 at the concrete store `exDB` and the two requests. -/
theorem loan_balance_invariant_witness :
    (findLoan exDB "LOAN-1" = some exLoan ∧ exLoan.status = .ACTIVE ∧
      exLoan.remainingBalance = exLoan.totalAmount ∧ 1 ≤ exLoan.totalAmount) ∧
    (∃ l1 l2, findLoan (runPayments exDB [exReq1]) "LOAN-1" = some l1 ∧
      findLoan (runPayments exDB ([exReq1] ++ [exReq2])) "LOAN-1" = some l2 ∧
      (0 ≤ l1.remainingBalance ∧ l1.remainingBalance ≤ l1.totalAmount ∧
        (l1.status = .PAID_OFF ↔ l1.remainingBalance = 0)) ∧
      (0 ≤ l2.remainingBalance ∧ l2.remainingBalance ≤ l2.totalAmount ∧
        (l2.status = .PAID_OFF ↔ l2.remainingBalance = 0)) ∧
      l2.remainingBalance ≤ l1.remainingBalance ∧
      l1.remainingBalance ≤ exLoan.totalAmount) :=
  ⟨⟨by with_unfolding_all rfl, rfl, rfl, by with_unfolding_all decide⟩,
    loan_balance_invariant [exReq1] [exReq2] (by with_unfolding_all rfl) rfl rfl
      (by with_unfolding_all decide)⟩

/-! ### Claim C3 -/

/-- C3: every rejected payment attempt — non-numeric amount, `amount ≤ 0`,
unknown loan, loan already `PAID_OFF`, or overpayment on a live loan — fails
with an error and leaves the store (hence the loan's
`remainingBalance`/`status` and the payment collection) unchanged. -/
theorem rejected_payment_no_mutation {db : DB} {r : PayReq}
    (hrej : r.amount = none ∨ (∃ a, r.amount = some a ∧ a ≤ 0) ∨
      findLoan db r.loanId = none ∨
      (∃ l, findLoan db r.loanId = some l ∧
        (l.status = .PAID_OFF ∨ ∃ a, r.amount = some a ∧ l.remainingBalance < a))) :
    (∃ e, postPayment db r.loanId r.amount r.paymentType r.paymentMethod = .error e) ∧
    payStep db r = db := by
  have herr : ∃ e,
      postPayment db r.loanId r.amount r.paymentType r.paymentMethod = .error e := by
    unfold postPayment
    split
    · exact ⟨_, rfl⟩
    · rename_i hfields
      split
      · exact ⟨_, rfl⟩
      · rename_i a hamt
        split
        · exact ⟨_, rfl⟩
        · rename_i ha
          split
          · exact ⟨_, rfl⟩
          · rename_i loan hloan
            split
            · exact ⟨_, rfl⟩
            · rename_i hpaid
              split
              · exact ⟨_, rfl⟩
              · rename_i hover
                exfalso
                rcases hrej with hn | ⟨a2, ha2, hle2⟩ | hnf | ⟨l, hl, hbad⟩
                · rw [hn] at hamt
                  exact Option.noConfusion hamt
                · rw [ha2] at hamt
                  exact ha (Option.some.inj hamt ▸ hle2)
                · rw [hnf] at hloan
                  exact Option.noConfusion hloan
                · rw [hl] at hloan
                  have hl2 : l = loan := Option.some.inj hloan
                  subst hl2
                  rcases hbad with hp | ⟨a2, ha2, hov2⟩
                  · exact hpaid hp
                  · rw [ha2] at hamt
                    exact hover (Option.some.inj hamt ▸ hov2)
  obtain ⟨e, he⟩ := herr
  exact ⟨⟨e, he⟩, payStep_of_error he⟩

/-- Witness for C3: a negative amount against the concrete store. -/
theorem rejected_payment_no_mutation_witness :
    ((some (-5) : Option ℚ) = none ∨
      (∃ a, (some (-5) : Option ℚ) = some a ∧ a ≤ 0) ∨
      findLoan exDB "LOAN-1" = none ∨
      (∃ l, findLoan exDB "LOAN-1" = some l ∧
        (l.status = .PAID_OFF ∨
          ∃ a, (some (-5) : Option ℚ) = some a ∧ l.remainingBalance < a))) ∧
    ((∃ e, postPayment exDB "LOAN-1" (some (-5)) "EMI" "cash" = .error e) ∧
      payStep exDB ⟨"LOAN-1", some (-5), "EMI", "cash"⟩ = exDB) :=
  ⟨Or.inr (Or.inl ⟨-5, rfl, by norm_num⟩),
    @rejected_payment_no_mutation exDB ⟨"LOAN-1", some (-5), "EMI", "cash"⟩
      (Or.inr (Or.inl ⟨-5, rfl, by norm_num⟩))⟩

/-! ### Claim C10 -/

/-- C10: an amount strictly between `0` and `1` against a live loan with
sufficient balance passes the route's positivity and balance checks, but
`payment.save()` fails Mongoose validation (`amount ≥ 1`), so the request is
rejected with a validation error before the loan is touched: the store is
returned unchanged. -/
theorem fractional_payment_rejected_by_schema {db : DB} {lid pt pm : String}
    {l : Loan} {a : ℚ}
    (hlid : lid ≠ "") (hpt : pt ≠ "") (hpm : pm ≠ "")
    (h : findLoan db lid = some l) (hA : l.status = .ACTIVE)
    (h0 : 0 < a) (h1 : a < 1) (hle : a ≤ l.remainingBalance) :
    postPayment db lid (some a) pt pm = .error .validationFailed ∧
    payStep db ⟨lid, some a, pt, pm⟩ = db := by
  have hguard : ¬(lid = "" ∨ (some a : Option ℚ).getD 0 = 0 ∨ pt = "" ∨ pm = "") := by
    simp only [Option.getD_some]
    push_neg
    exact ⟨hlid, ne_of_gt h0, hpt, hpm⟩
  have hpv : paymentDocValid (mkPayment lid a pt pm) = false := by
    simp only [paymentDocValid, mkPayment]
    rw [decide_eq_false (not_le.mpr h1)]
    simp
  have hmain : postPayment db lid (some a) pt pm = .error .validationFailed := by
    unfold postPayment
    rw [if_neg hguard]
    dsimp only
    rw [if_neg (not_le.mpr h0), h]
    dsimp only
    rw [if_neg (by rw [hA]; simp), if_neg (not_lt.mpr hle), hpv]
    simp
  exact ⟨hmain, payStep_of_error hmain⟩

/-- Witness for C10: paying `0.50` on the concrete loan with balance
`1066.20`. -/
theorem fractional_payment_rejected_by_schema_witness :
    (findLoan exDB "LOAN-1" = some exLoan ∧ exLoan.status = .ACTIVE ∧
      (0:ℚ) < 1/2 ∧ (1/2:ℚ) < 1 ∧ (1/2:ℚ) ≤ exLoan.remainingBalance) ∧
    (postPayment exDB "LOAN-1" (some (1/2)) "EMI" "cash"
        = .error .validationFailed ∧
      payStep exDB ⟨"LOAN-1", some (1/2), "EMI", "cash"⟩ = exDB) :=
  ⟨⟨by with_unfolding_all rfl, rfl, by norm_num, by norm_num,
      by with_unfolding_all decide⟩,
    fractional_payment_rejected_by_schema (by decide) (by decide) (by decide)
      (by with_unfolding_all rfl) rfl (by norm_num) (by norm_num)
      (by with_unfolding_all decide)⟩

/-! ### Claim C2 -/

/-- Paying exactly the remaining balance zeroes the balance and marks the
loan `PAID_OFF` (the `newBalance <= 0` branch of the route, with
`round2 0 = 0`). -/
theorem applyToLoan_full (l : Loan) :
    applyToLoan l l.remainingBalance =
      { l with remainingBalance := 0, status := .PAID_OFF } := by
  rw [applyToLoan, sub_self, round2_zero]
  simp

/-- C2, amended: on an `ACTIVE` loan whose `remainingBalance` is at least
`1` (the Payment schema's minimum — balances below `1` are rejected at
`payment.save()`, see the counterexample), paying exactly the remaining
balance succeeds, sets `remainingBalance` to exactly `0` and `status` to
`PAID_OFF`, and afterwards every further payment attempt against the loan
fails with an error. -/
theorem exact_balance_payoff {db : DB} {lid pt pm : String} {l : Loan}
    (hlid : lid ≠ "") (hpt : pt ≠ "") (hpm : pm ≠ "")
    (hptv : ptypeValues.contains pt.toUpper = true)
    (hpmv : pmethodValues.contains pm.toLower = true)
    (h : findLoan db lid = some l) (hA : l.status = .ACTIVE)
    (h1 : 1 ≤ l.remainingBalance) :
    ∃ db2 pay,
      postPayment db lid (some l.remainingBalance) pt pm = .ok (db2, pay) ∧
      (∃ l', findLoan db2 lid = some l' ∧ l'.remainingBalance = 0 ∧
        l'.status = .PAID_OFF) ∧
      ∀ amt2 pt2 pm2, ∃ e, postPayment db2 lid amt2 pt2 pm2 = .error e := by
  have hguard : ¬(lid = "" ∨ (some l.remainingBalance : Option ℚ).getD 0 = 0 ∨
      pt = "" ∨ pm = "") := by
    simp only [Option.getD_some]
    push_neg
    refine ⟨hlid, ?_, hpt, hpm⟩
    intro hz
    rw [hz] at h1
    linarith
  have hpv : paymentDocValid (mkPayment lid l.remainingBalance pt pm) = true := by
    simp only [paymentDocValid, mkPayment]
    rw [decide_eq_true h1, hptv, hpmv]
    rfl
  have hok : postPayment db lid (some l.remainingBalance) pt pm =
      .ok ({ db with loans := updateLoan db.loans (applyToLoan l l.remainingBalance),
                     payments := db.payments ++ [mkPayment lid l.remainingBalance pt pm] },
           mkPayment lid l.remainingBalance pt pm) := by
    unfold postPayment
    rw [if_neg hguard]
    dsimp only
    rw [if_neg (not_le.mpr (by linarith : (0:ℚ) < l.remainingBalance)), h]
    dsimp only
    rw [if_neg (by rw [hA]; simp), if_neg (lt_irrefl _), hpv]
    simp
  have hup := find?_update db.loans lid (applyToLoan l l.remainingBalance) l h
  rw [(applyToLoan_fields l l.remainingBalance).1] at hup
  have hfind2 : findLoan
      { db with loans := updateLoan db.loans (applyToLoan l l.remainingBalance),
                payments := db.payments ++ [mkPayment lid l.remainingBalance pt pm] } lid =
      some (applyToLoan l l.remainingBalance) := by
    show (updateLoan db.loans (applyToLoan l l.remainingBalance)).find?
      (fun x => x.loanId == lid) = _
    rw [hup, if_pos (beq_self_eq_true _)]
  refine ⟨_, _, hok, ⟨applyToLoan l l.remainingBalance, hfind2, ?_, ?_⟩, ?_⟩
  · rw [applyToLoan_full]
  · rw [applyToLoan_full]
  · intro amt2 pt2 pm2
    unfold postPayment
    split
    · exact ⟨_, rfl⟩
    · rename_i hfields
      split
      · exact ⟨_, rfl⟩
      · rename_i a2
        split
        · exact ⟨_, rfl⟩
        · rename_i ha2
          rw [hfind2]
          dsimp only
          rw [if_pos (by rw [applyToLoan_full])]
          exact ⟨_, rfl⟩

/-- Witness for the amended C2 at the concrete store: paying the full
balance `1066.20` of `LOAN-1`. -/
theorem exact_balance_payoff_witness :
    (findLoan exDB "LOAN-1" = some exLoan ∧ exLoan.status = .ACTIVE ∧
      1 ≤ exLoan.remainingBalance) ∧
    (∃ db2 pay,
      postPayment exDB "LOAN-1" (some exLoan.remainingBalance) "EMI" "cash"
        = .ok (db2, pay) ∧
      (∃ l', findLoan db2 "LOAN-1" = some l' ∧ l'.remainingBalance = 0 ∧
        l'.status = .PAID_OFF) ∧
      ∀ amt2 pt2 pm2, ∃ e, postPayment db2 "LOAN-1" amt2 pt2 pm2 = .error e) :=
  ⟨⟨by with_unfolding_all rfl, rfl, by with_unfolding_all decide⟩,
    exact_balance_payoff (by decide) (by decide) (by decide)
      (by with_unfolding_all decide) (by with_unfolding_all decide)
      (by with_unfolding_all rfl) rfl (by with_unfolding_all decide)⟩

/-- The loan `exLoan` after an accepted payment of `1065.70`: still
`ACTIVE`, with `remainingBalance = 0.50` below the Payment schema minimum. -/
def exLoanHalf : Loan :=
  { loanId := "LOAN-1", customerId := "CUST-1", amount := 1000,
    interestRate := 12, term := 12, status := .ACTIVE,
    monthlyPayment := 1777/20, totalAmount := 5331/5, remainingBalance := 1/2 }

set_option maxRecDepth 4000 in
/-- C2 counterexample, on a reachable state: starting from `exLoan`
(balance `1066.20`, `ACTIVE`), the accepted payment of `1065.70` leaves the
loan `ACTIVE` with `remainingBalance = 0.50`.  A payment of exactly that
remaining balance is then rejected at `payment.save()` (the schema requires
`amount ≥ 1`) instead of zeroing the balance and reaching `PAID_OFF`, so the
claim fails as stated for `ACTIVE` loans with balance below `1`. -/
theorem exact_balance_payoff_fails_below_one :
    findLoan (payStep exDB ⟨"LOAN-1", some (10657/10), "EMI", "cash"⟩) "LOAN-1"
        = some exLoanHalf ∧
    postPayment (payStep exDB ⟨"LOAN-1", some (10657/10), "EMI", "cash"⟩)
        "LOAN-1" (some (1/2)) "EMI" "cash" = .error .validationFailed :=
  ⟨by with_unfolding_all rfl, by with_unfolding_all rfl⟩

/-! ### Claims C4, C5, C7: the amortization calculator -/

/-- C5 counterexample: `calculateMonthlyPayment` performs no input
validation.  For the out-of-range input `P = -1000 ≤ 0` (zero rate, 2
months) it happily returns the numeric result `-500` instead of signalling
an `InvalidArgument` error — in the source the function's `try/catch` never
fires on numeric arguments, and all validation lives in the callers. -/
theorem calculator_accepts_nonpositive_principal :
    calculateMonthlyPayment (-1000) 0 2 = .ok (-500) := by
  with_unfolding_all rfl

/-- C5, amended: the calculator itself signals no error.  For every term
`n ≥ 1` and rate `r ≥ 0` it returns a numeric result for any principal
whatsoever (`P ≤ 0` included), and for `n = 0` it returns a non-finite
number (`Infinity`/`NaN` from the division by zero) rather than an
`InvalidArgument` error; range validation happens only in the loan-creation
route and the Mongoose schema. -/
theorem calculator_no_input_validation (P r : ℚ) (n : ℕ) (hn : 1 ≤ n) (hr : 0 ≤ r) :
    (∃ q, calculateMonthlyPayment P r n = .ok q) ∧
    calculateMonthlyPayment P r 0 = .nonFinite := by
  constructor
  · unfold calculateMonthlyPayment
    by_cases hm : r / 100 / 12 = 0
    · rw [if_pos hm, if_neg (by omega : ¬ n = 0)]
      exact ⟨_, rfl⟩
    · rw [if_neg hm]
      dsimp only
      have hr0 : (0:ℚ) < r := by
        rcases lt_or_eq_of_le hr with h | h
        · exact h
        · exact absurd (by rw [← h]; norm_num) hm
      have hmpos : (0:ℚ) < r / 100 / 12 := by positivity
      have hgt : 1 < (1 + r / 100 / 12) ^ n := one_lt_pow₀ (by linarith) (by omega)
      rw [if_neg (sub_ne_zero_of_ne (ne_of_gt hgt))]
      exact ⟨_, rfl⟩
  · unfold calculateMonthlyPayment
    by_cases hm : r / 100 / 12 = 0
    · rw [if_pos hm, if_pos rfl]
    · rw [if_neg hm]
      dsimp only
      rw [pow_zero, if_pos (sub_self 1)]

/-- Witness for the amended C5 at `P = -1000`, `r = 12`, `n = 2`. -/
theorem calculator_no_input_validation_witness :
    ((1:ℕ) ≤ 2 ∧ (0:ℚ) ≤ 12) ∧
    ((∃ q, calculateMonthlyPayment (-1000) 12 2 = .ok q) ∧
      calculateMonthlyPayment (-1000) 12 0 = .nonFinite) :=
  ⟨⟨by norm_num, by norm_num⟩,
    calculator_no_input_validation (-1000) 12 2 (by norm_num) (by norm_num)⟩

/-- C7: at `P = 500000`, `r = 8.5`, `n = 60` the calculator returns exactly
`10258.27`, and the loan route's `totalAmount` step on it yields exactly
`615496.20` — the exact values also hard-coded by the seed endpoint, well
within the claimed `±0.01` tolerance. -/
theorem amortization_example_exact :
    calculateMonthlyPayment 500000 (17/2) 60 = .ok (1025827/100) ∧
    round2 ((1025827/100) * ((60:ℕ) : ℚ)) = 3077481/5 := by
  constructor
  · with_unfolding_all rfl
  · with_unfolding_all rfl

/-- C4: for `P > 0`, `r ≥ 0`, `n ≥ 1`: with `m = r/100/12 > 0` the
calculator returns the standard annuity payment
`P·m·(1+m)^n / ((1+m)^n − 1)` rounded to 2 decimals; with `r = 0` it
returns `P/n` rounded to 2 decimals; and the loan route stores
`totalAmount = round2(monthlyPayment · n)` with `monthlyPayment` exactly
the calculator's result. -/
theorem calculator_matches_annuity_formula (P r : ℚ) (n : ℕ)
    (hn : 1 ≤ n) (_hP : 0 < P) (hr : 0 ≤ r) :
    (0 < r → calculateMonthlyPayment P r n =
      .ok (round2 (P * (r/100/12) * (1 + r/100/12) ^ n /
        ((1 + r/100/12) ^ n - 1)))) ∧
    (r = 0 → calculateMonthlyPayment P r n = .ok (round2 (P / (n:ℚ)))) ∧
    (∀ db lid cid db2 loan,
      postLoan db lid cid (some P) (some r) (some n) = .ok (db2, loan) →
      loan.totalAmount = round2 (loan.monthlyPayment * (n:ℚ)) ∧
      calculateMonthlyPayment P r n = .ok loan.monthlyPayment) := by
  refine ⟨?_, ?_, ?_⟩
  · intro hrpos
    have hmpos : (0:ℚ) < r / 100 / 12 := by positivity
    unfold calculateMonthlyPayment
    rw [if_neg (ne_of_gt hmpos)]
    dsimp only
    have hgt : 1 < (1 + r / 100 / 12) ^ n := one_lt_pow₀ (by linarith) (by omega)
    rw [if_neg (sub_ne_zero_of_ne (ne_of_gt hgt))]
    rw [← mul_assoc]
  · intro hr0
    subst hr0
    unfold calculateMonthlyPayment
    rw [if_pos (by norm_num), if_neg (by omega : ¬ n = 0)]
  · intro db lid cid db2 loan hpl
    unfold postLoan at hpl
    split at hpl
    · exact absurd hpl (by simp)
    · dsimp only at hpl
      split at hpl
      · exact absurd hpl (by simp)
      · split at hpl
        · rename_i hcust
          split at hpl
          · exact absurd hpl (by simp)
          · rename_i mp hmp
            split at hpl
            · have h2 := Except.ok.inj hpl
              injection h2 with hdb hloan
              subst hloan
              exact ⟨rfl, hmp⟩
            · exact absurd hpl (by simp)
        · exact absurd hpl (by simp)

/-- Witness for C4 at `P = 1000`, `r = 12`, `n = 12`. -/
theorem calculator_matches_annuity_formula_witness :
    ((1:ℕ) ≤ 12 ∧ (0:ℚ) < 1000 ∧ (0:ℚ) ≤ 12) ∧
    ((0 < (12:ℚ) → calculateMonthlyPayment 1000 12 12 =
      .ok (round2 (1000 * ((12:ℚ)/100/12) * (1 + (12:ℚ)/100/12) ^ 12 /
        ((1 + (12:ℚ)/100/12) ^ 12 - 1)))) ∧
    ((12:ℚ) = 0 → calculateMonthlyPayment 1000 12 12 =
      .ok (round2 (1000 / ((12:ℕ):ℚ)))) ∧
    (∀ db lid cid db2 loan,
      postLoan db lid cid (some 1000) (some 12) (some 12) = .ok (db2, loan) →
      loan.totalAmount = round2 (loan.monthlyPayment * ((12:ℕ):ℚ)) ∧
      calculateMonthlyPayment 1000 12 12 = .ok loan.monthlyPayment)) :=
  ⟨⟨by norm_num, by norm_num, by norm_num⟩,
    calculator_matches_annuity_formula 1000 12 12 (by norm_num) (by norm_num)
      (by norm_num)⟩

/-! ### Claim C6: output bounds of the calculator -/

/-- Discrete Bernoulli-type bound: `(1+m)^n (n·m − 1) + 1 ≥ 0` for `m > 0`. -/
theorem pow_term_nonneg (m : ℚ) (hm : 0 < m) (n : ℕ) :
    0 ≤ (1 + m) ^ n * ((n:ℚ) * m - 1) + 1 := by
  induction n with
  | zero => norm_num
  | succ n ih =>
    have hpow : (0:ℚ) < (1 + m) ^ n := pow_pos (by linarith) n
    have hterm : (0:ℚ) ≤ (1 + m) ^ n * (((n:ℚ) + 1) * m ^ 2) :=
      mul_nonneg (le_of_lt hpow) (mul_nonneg (by positivity) (sq_nonneg m))
    have key : (1 + m) ^ (n + 1) * (((n:ℚ) + 1) * m - 1) + 1
        = ((1 + m) ^ n * ((n:ℚ) * m - 1) + 1)
          + (1 + m) ^ n * (((n:ℚ) + 1) * m ^ 2) := by
      ring
    push_cast
    rw [key]
    linarith

/-- The accumulated-interest bound behind C6:
`(1+m)^(k+1)·(k·m/2 − 1) + 1 + (k+2)·m/2 ≥ 0` for `m > 0`. -/
theorem annuity_gain_nonneg (m : ℚ) (hm : 0 < m) (k : ℕ) :
    0 ≤ (1 + m) ^ (k + 1) * ((k:ℚ) * m / 2 - 1) + 1 + ((k:ℚ) + 2) * m / 2 := by
  induction k with
  | zero =>
    have hb : (1 + m) ^ (0 + 1) * ((0:ℚ) * m / 2 - 1) + 1 + ((0:ℚ) + 2) * m / 2
        = 0 := by ring
    push_cast
    linarith
  | succ k ih =>
    have hh := pow_term_nonneg m hm (k + 1)
    push_cast at hh
    have hstep : 0 ≤ ((1 + m) ^ (k + 1) * ((k:ℚ) * m / 2 - 1) + 1 + ((k:ℚ) + 2) * m / 2)
        + (m / 2) * ((1 + m) ^ (k + 1) * (((k:ℚ) + 1) * m - 1) + 1) := by
      have h2 : (0:ℚ) ≤ (m / 2) * ((1 + m) ^ (k + 1) * (((k:ℚ) + 1) * m - 1) + 1) :=
        mul_nonneg (by linarith) hh
      linarith
    push_cast
    calc (0:ℚ) ≤ ((1 + m) ^ (k + 1) * ((k:ℚ) * m / 2 - 1) + 1 + ((k:ℚ) + 2) * m / 2)
          + (m / 2) * ((1 + m) ^ (k + 1) * (((k:ℚ) + 1) * m - 1) + 1) := hstep
      _ = _ := by ring

/-- For `m > 0` and `n ≥ 1`, the exact (unrounded) annuity payment times `n`
exceeds the principal by at least `P·(n+1)·m/2` — the total repaid strictly
exceeds the principal by the accumulated interest. -/
theorem annuity_total_ge (P m : ℚ) (hP : 0 < P) (hm : 0 < m) (n : ℕ) (hn : 1 ≤ n) :
    P + P * ((n:ℚ) + 1) * m / 2 ≤ P * m * (1 + m) ^ n / ((1 + m) ^ n - 1) * n := by
  obtain ⟨k, rfl⟩ : ∃ k, n = k + 1 := ⟨n - 1, by omega⟩
  have hG := annuity_gain_nonneg m hm k
  have hA : 1 < (1 + m) ^ (k + 1) := one_lt_pow₀ (by linarith) (by omega)
  have hden : (0:ℚ) < (1 + m) ^ (k + 1) - 1 := by linarith
  rw [div_mul_eq_mul_div, le_div_iff₀ hden]
  push_cast
  have hkey : P * m * (1 + m) ^ (k + 1) * ((k:ℚ) + 1)
      - (P + P * (((k:ℚ) + 1) + 1) * m / 2) * ((1 + m) ^ (k + 1) - 1)
      = P * ((1 + m) ^ (k + 1) * ((k:ℚ) * m / 2 - 1) + 1 + ((k:ℚ) + 2) * m / 2) := by
    ring
  have hprod : (0:ℚ) ≤
      P * ((1 + m) ^ (k + 1) * ((k:ℚ) * m / 2 - 1) + 1 + ((k:ℚ) + 2) * m / 2) :=
    mul_nonneg hP.le hG
  linarith

/-- C6: for every valid loan input (`P ≥ 1000`, `0.1 ≤ r ≤ 50`,
`1 ≤ n ≤ 360`) the calculator returns a strictly positive `monthlyPayment`,
and the stored `totalAmount = round2(monthlyPayment · n)` is strictly
greater than `P` (hence `≥ P`, with equality impossible away from the
zero-rate case). -/
theorem valid_loan_total_exceeds_principal (P r : ℚ) (n : ℕ)
    (hP : 1000 ≤ P) (hr1 : 1/10 ≤ r) (_hr2 : r ≤ 50)
    (hn1 : 1 ≤ n) (hn2 : n ≤ 360) :
    ∃ mp, calculateMonthlyPayment P r n = .ok mp ∧ 0 < mp ∧
      P < round2 (mp * (n:ℚ)) := by
  have hr0 : (0:ℚ) < r := lt_of_lt_of_le (by norm_num) hr1
  have hm : (0:ℚ) < r / 100 / 12 := by positivity
  have hmeq : r / 100 / 12 = r / 1200 := by ring
  have hm1 : 1 / 12000 ≤ r / 100 / 12 := by rw [hmeq]; linarith
  have hP0 : (0:ℚ) < P := by linarith
  have hnq : (1:ℚ) ≤ (n:ℚ) := by exact_mod_cast hn1
  have hn360 : ((n:ℚ)) ≤ 360 := by exact_mod_cast hn2
  have hnpos : (0:ℚ) < (n:ℚ) := by linarith
  have hA : 1 < (1 + r / 100 / 12) ^ n := one_lt_pow₀ (by linarith) (by omega)
  have hden : (0:ℚ) < (1 + r / 100 / 12) ^ n - 1 := by linarith
  have hraw := annuity_total_ge P (r / 100 / 12) hP0 hm n hn1
  have hrawpos : (0:ℚ) <
      P * (r / 100 / 12) * (1 + r / 100 / 12) ^ n / ((1 + r / 100 / 12) ^ n - 1) :=
    div_pos (mul_pos (mul_pos hP0 hm) (pow_pos (by linarith) n)) hden
  have hassoc : P * (r / 100 / 12 * (1 + r / 100 / 12) ^ n) /
      ((1 + r / 100 / 12) ^ n - 1)
      = P * (r / 100 / 12) * (1 + r / 100 / 12) ^ n /
        ((1 + r / 100 / 12) ^ n - 1) := by
    rw [mul_assoc]
  have hterm : (0:ℚ) ≤ P * ((n:ℚ) + 1) * (r / 100 / 12) / 2 :=
    div_nonneg (mul_nonneg (mul_nonneg hP0.le (by positivity)) hm.le) (by norm_num)
  have h1000 : 1000 ≤
      P * (r / 100 / 12) * (1 + r / 100 / 12) ^ n / ((1 + r / 100 / 12) ^ n - 1) * n := by
    linarith
  have h360 :
      P * (r / 100 / 12) * (1 + r / 100 / 12) ^ n / ((1 + r / 100 / 12) ^ n - 1) * n ≤
      P * (r / 100 / 12) * (1 + r / 100 / 12) ^ n / ((1 + r / 100 / 12) ^ n - 1) * 360 :=
    mul_le_mul_of_nonneg_left hn360 hrawpos.le
  have hraw25 : 25 / 9 ≤
      P * (r / 100 / 12) * (1 + r / 100 / 12) ^ n / ((1 + r / 100 / 12) ^ n - 1) := by
    linarith
  refine ⟨round2 (P * (r / 100 / 12 * (1 + r / 100 / 12) ^ n) /
      ((1 + r / 100 / 12) ^ n - 1)), ?_, ?_, ?_⟩
  · unfold calculateMonthlyPayment
    rw [if_neg (ne_of_gt hm)]
    dsimp only
    rw [if_neg (sub_ne_zero_of_ne (ne_of_gt hA))]
  · rw [hassoc]
    have hlb := lt_round2
      (P * (r / 100 / 12) * (1 + r / 100 / 12) ^ n / ((1 + r / 100 / 12) ^ n - 1))
    linarith
  · rw [hassoc]
    have hlbmp := lt_round2
      (P * (r / 100 / 12) * (1 + r / 100 / 12) ^ n / ((1 + r / 100 / 12) ^ n - 1))
    have ht1 := mul_lt_mul_of_pos_right hlbmp hnpos
    have hlbta := lt_round2
      (round2 (P * (r / 100 / 12) * (1 + r / 100 / 12) ^ n /
        ((1 + r / 100 / 12) ^ n - 1)) * (n:ℚ))
    have hs1 : 1000 * (((n:ℚ) + 1) * (r / 100 / 12)) ≤
        P * (((n:ℚ) + 1) * (r / 100 / 12)) :=
      mul_le_mul_of_nonneg_right hP (mul_nonneg (by positivity) hm.le)
    have hs2 : ((n:ℚ) + 1) * (1 / 12000) ≤ ((n:ℚ) + 1) * (r / 100 / 12) :=
      mul_le_mul_of_nonneg_left hm1 (by positivity)
    nlinarith [hraw, ht1, hlbta, hs1, hs2, hnpos]

/-- Witness for C6 at `P = 1000`, `r = 12`, `n = 12`. -/
theorem valid_loan_total_exceeds_principal_witness :
    ((1000:ℚ) ≤ 1000 ∧ (1/10:ℚ) ≤ 12 ∧ (12:ℚ) ≤ 50 ∧ 1 ≤ 12 ∧ 12 ≤ 360) ∧
    (∃ mp, calculateMonthlyPayment 1000 12 12 = .ok mp ∧ 0 < mp ∧
      (1000:ℚ) < round2 (mp * ((12:ℕ):ℚ))) :=
  ⟨⟨by norm_num, by norm_num, by norm_num, by norm_num, by norm_num⟩,
    valid_loan_total_exceeds_principal 1000 12 12 (by norm_num) (by norm_num)
      (by norm_num) (by norm_num) (by norm_num)⟩

/-! ### Claim C8: the dashboard is a pure aggregation -/

/-- The `$group`/`$sum` pipeline with the route's `[0]?.total || 0`
defaulting computes exactly the list sum. -/
theorem aggregateSum_getD (xs : List ℚ) : (aggregateSum xs).getD 0 = xs.sum := by
  rw [aggregateSum]
  split
  · rename_i h
    rw [List.isEmpty_iff] at h
    subst h
    rfl
  · rw [Option.getD_some, List.sum_eq_foldl]

/-- C8: the dashboard statistics are pure aggregations over the stored
entities — the total loan amount is the sum of `amount` over all loans, the
total collected is the sum of `amount` over the `completed` payments, and
the active/paid-off counters count loans by `status`; they are recomputed
from the store on every call (`getDashboard` is a function of `db` alone). -/
theorem dashboard_is_pure_aggregation (db : DB) :
    (getDashboard db).totalLoanAmount = (db.loans.map Loan.amount).sum ∧
    (getDashboard db).totalCollected =
      ((db.payments.filter (fun p => decide (p.status = .completed))).map
        Payment.amount).sum ∧
    (getDashboard db).activeLoans =
      db.loans.countP (fun l => decide (l.status = .ACTIVE)) ∧
    (getDashboard db).paidOffLoans =
      db.loans.countP (fun l => decide (l.status = .PAID_OFF)) ∧
    (getDashboard db).totalLoans = db.loans.length :=
  ⟨aggregateSum_getD _, aggregateSum_getD _,
    (List.countP_eq_length_filter _ db.loans).symm,
    (List.countP_eq_length_filter _ db.loans).symm, rfl⟩

/-! ### Claim C9: monetary fields stay on the 2-decimal grid -/

/-- Inversion of a successful loan creation: the inputs were numeric, the
calculator succeeded, and the stored document is built from the rounded
monthly payment with `totalAmount = remainingBalance = round2(mp · n)`. -/
theorem postLoan_ok_inv {db : DB} {lid cid : String} {amt rate : Option ℚ}
    {trm : Option ℕ} {db2 : DB} {loan : Loan}
    (h : postLoan db lid cid amt rate trm = .ok (db2, loan)) :
    ∃ P r n mp, amt = some P ∧ rate = some r ∧ trm = some n ∧
      calculateMonthlyPayment P r n = .ok mp ∧
      loan = { loanId := lid, customerId := cid, amount := P, interestRate := r,
               term := n, status := .ACTIVE, monthlyPayment := mp,
               totalAmount := round2 (mp * (n:ℚ)),
               remainingBalance := round2 (mp * (n:ℚ)) } ∧
      loanDocValid loan = true ∧
      db2 = { db with loans := db.loans ++ [loan] } := by
  unfold postLoan at h
  split at h
  · exact absurd h (by simp)
  · rename_i hfields
    split at h
    · rename_i P r n
      dsimp only at h
      split at h
      · exact absurd h (by simp)
      · split at h
        · split at h
          · exact absurd h (by simp)
          · rename_i mp hmp
            split at h
            · rename_i hvalid
              have h2 := Except.ok.inj h
              injection h2 with hdb hln
              subst hln
              subst hdb
              exact ⟨P, r, n, mp, rfl, rfl, rfl, hmp, rfl, hvalid, rfl⟩
            · exact absurd h (by simp)
        · exact absurd h (by simp)
    all_goals exact absurd h (by simp)

/-- A successful calculator run always returns a rounded (grid) value. -/
theorem calc_ok_onGrid {P r : ℚ} {n : ℕ} {mp : ℚ}
    (h : calculateMonthlyPayment P r n = .ok mp) : onGrid mp := by
  unfold calculateMonthlyPayment at h
  dsimp only at h
  split at h
  · split at h
    · exact absurd h (by simp)
    · exact CalcResult.ok.inj h ▸ round2_onGrid _
  · split at h
    · exact absurd h (by simp)
    · exact CalcResult.ok.inj h ▸ round2_onGrid _

/-- The balance produced by a payment application is on the grid: either
forced `0` or a `round2` value. -/
theorem applyToLoan_onGrid (l : Loan) (a : ℚ) :
    onGrid (applyToLoan l a).remainingBalance := by
  rw [applyToLoan]
  split
  · exact ⟨0, by norm_num⟩
  · exact round2_onGrid _

/-- C9: under the exact-rational reading of the rounding steps, every loan
the creation route stores has `monthlyPayment`, `totalAmount` and
`remainingBalance` on the 2-decimal grid, and every successful payment
application leaves the loan with a grid `remainingBalance` while never
touching `monthlyPayment`/`totalAmount`. -/
theorem money_fields_on_grid :
    (∀ db lid cid amt rate trm db2 loan,
      postLoan db lid cid amt rate trm = .ok (db2, loan) →
      onGrid loan.monthlyPayment ∧ onGrid loan.totalAmount ∧
        onGrid loan.remainingBalance) ∧
    (∀ db lid amt pt pm db2 pay l,
      postPayment db lid amt pt pm = .ok (db2, pay) →
      findLoan db lid = some l →
      ∃ l', findLoan db2 lid = some l' ∧ onGrid l'.remainingBalance ∧
        l'.monthlyPayment = l.monthlyPayment ∧ l'.totalAmount = l.totalAmount) := by
  constructor
  · intro db lid cid amt rate trm db2 loan h
    obtain ⟨P, r, n, mp, -, -, -, hmp, hloan, -, -⟩ := postLoan_ok_inv h
    subst hloan
    exact ⟨calc_ok_onGrid hmp, round2_onGrid _, round2_onGrid _⟩
  · intro db lid amt pt pm db2 pay l h hfl
    obtain ⟨loan, a, -, hfind, -, -, -, -, -, hdb2⟩ := postPayment_ok_inv h
    rw [hfl] at hfind
    have hl : l = loan := Option.some.inj hfind
    rw [← hl] at hdb2
    subst hdb2
    have hup := find?_update db.loans lid (applyToLoan l a) l hfl
    rw [(applyToLoan_fields l a).1] at hup
    refine ⟨applyToLoan l a, ?_, applyToLoan_onGrid l a,
      (applyToLoan_fields l a).2.2, (applyToLoan_fields l a).2.1⟩
    show (updateLoan db.loans (applyToLoan l a)).find?
      (fun x => x.loanId == lid) = _
    rw [hup, if_pos (beq_self_eq_true _)]

/-- The loan created by the grid witness: `P = 1000`, `r = 12`, `n = 12`. -/
def exLoan3 : Loan :=
  { loanId := "LOAN-3", customerId := "CUST-1", amount := 1000,
    interestRate := 12, term := 12, status := .ACTIVE,
    monthlyPayment := 1777/20, totalAmount := 5331/5,
    remainingBalance := 5331/5 }

/-- The store after creating `exLoan3` on top of `exDB`. -/
def exDB3 : DB :=
  { customers := ["CUST-1"], loans := [exLoan, exLoan3], payments := [] }

/-- The payment document recorded by the grid witness. -/
def exPay1 : Payment :=
  { loanId := "LOAN-1", amount := 100, paymentType := "EMI",
    paymentMethod := "cash", status := .completed }

/-- `exLoan` after the accepted `100` payment: balance `966.20`. -/
def exLoanAfter : Loan :=
  { loanId := "LOAN-1", customerId := "CUST-1", amount := 1000,
    interestRate := 12, term := 12, status := .ACTIVE,
    monthlyPayment := 1777/20, totalAmount := 5331/5,
    remainingBalance := 4831/5 }

/-- The store after paying `100` on `LOAN-1` in `exDB`. -/
def exDBAfterPay : DB :=
  { customers := ["CUST-1"], loans := [exLoanAfter], payments := [exPay1] }

set_option maxRecDepth 4000 in
/-- Witness for C9: the concrete loan creation and the concrete payment. -/
theorem money_fields_on_grid_witness :
    (onGrid exLoan3.monthlyPayment ∧ onGrid exLoan3.totalAmount ∧
      onGrid exLoan3.remainingBalance) ∧
    (∃ l', findLoan exDBAfterPay "LOAN-1" = some l' ∧
      onGrid l'.remainingBalance ∧
      l'.monthlyPayment = exLoan.monthlyPayment ∧
      l'.totalAmount = exLoan.totalAmount) :=
  ⟨money_fields_on_grid.1 exDB "LOAN-3" "CUST-1" (some 1000) (some 12) (some 12)
      exDB3 exLoan3 (by with_unfolding_all rfl),
    money_fields_on_grid.2 exDB "LOAN-1" (some 100) "EMI" "cash" exDBAfterPay
      exPay1 exLoan (by with_unfolding_all rfl) (by with_unfolding_all rfl)⟩

end LendFlow
